import Mathlib

/-!
Water quality client (`script.js`): parameter classification, verdict rendering and the
alert feed.

A shallow embedding of the decision logic of `src/script.js`.

* JavaScript numbers are modelled by `JSNum`: `NaN`, the two infinities, and the finite
  doubles, each finite double being the rational number it denotes.  The two zeros are
  identified; the program never divides, and comparison, `=== 0` and `toFixed` do not
  tell them apart.
* Arithmetic is IEEE-754 binary64: the exact rational result is rounded to the nearest
  double, ties to even (`roundDouble`).  A decimal literal of the source denotes the
  double nearest to it (`lit`).
* The DOM is modelled by the values the handlers write into it.
-/

namespace WaterQuality

/-! ## JavaScript numbers -/

/-- A JavaScript Number: not-a-number, minus infinity, a finite value, plus infinity. -/
inductive JSNum where
  | nan
  | negInf
  | fin (q : ℚ)
  | posInf
  deriving DecidableEq, Repr

/-- Nearest natural number to `n / d` (for `0 < d`), a tie going to the even neighbour. -/
def roundHalfEven (n d : ℕ) : ℕ :=
  let f := n / d
  let r := n % d
  if 2 * r < d then f
  else if d < 2 * r then f + 1
  else if f % 2 = 0 then f else f + 1

/-- Binary logarithm by repeated halving, at most `fuel` times. -/
def log2Fuel : ℕ → ℕ → ℕ
  | 0, _ => 0
  | fuel + 1, n => if n < 2 then 0 else log2Fuel fuel (n / 2) + 1

/-- The natural number `⌊log₂ n⌋` (and `0` for `n = 0`). -/
def natLog2 (n : ℕ) : ℕ := log2Fuel n n

/-- The integer `e` with `2^e ≤ n / d < 2^(e+1)`, for positive `n` and `d`. -/
def floorLog2 (n d : ℕ) : ℤ :=
  let e0 : ℤ := (natLog2 n : ℤ) - (natLog2 d : ℤ)
  if e0 ≥ 0 then
    if n < d * 2 ^ e0.toNat then e0 - 1 else e0
  else
    if n * 2 ^ (-e0).toNat < d then e0 - 1 else e0

/-- The rational `2^k` for an integer exponent. -/
def pow2 (k : ℤ) : ℚ :=
  if k ≥ 0 then ((2 ^ k.toNat : ℕ) : ℚ) else 1 / ((2 ^ (-k).toNat : ℕ) : ℚ)

/-- The Number value for a rational: round to nearest binary64, ties to even, with gradual
underflow below `2^-1022` and overflow to an infinity from `2^1024 - 2^970` on. -/
def roundDouble (q : ℚ) : JSNum :=
  if q = 0 then .fin 0
  else
    let n := q.num.natAbs
    let d := q.den
    let e := max (floorLog2 n d) (-1022)
    let k := e - 52
    let m := if k ≥ 0 then roundHalfEven n (d * 2 ^ k.toNat)
             else roundHalfEven (n * 2 ^ (-k).toNat) d
    let mag := (m : ℚ) * pow2 k
    if mag ≥ pow2 1024 then (if q < 0 then .negInf else .posInf)
    else .fin (if q < 0 then -mag else mag)

/-- A decimal numeric literal of the source text. -/
def lit (q : ℚ) : JSNum := roundDouble q

namespace JSNum

/-- Whether the number is `NaN`. -/
def isNaN : JSNum → Bool
  | nan => true
  | _ => false

/-- The operator `a < b`: false as soon as one side is `NaN`. -/
def lt : JSNum → JSNum → Bool
  | nan, _ => false
  | _, nan => false
  | negInf, negInf => false
  | negInf, _ => true
  | fin _, negInf => false
  | fin a, fin b => decide (a < b)
  | fin _, posInf => true
  | posInf, _ => false

/-- The operator `a > b`. -/
def gt (a b : JSNum) : Bool := lt b a

/-- The operator `a <= b`: `b < a` is neither true nor undefined. -/
def le (a b : JSNum) : Bool := !(a.isNaN || b.isNaN) && !(lt b a)

/-- The operator `a >= b`: `a < b` is neither true nor undefined. -/
def ge (a b : JSNum) : Bool := !(a.isNaN || b.isNaN) && !(lt a b)

/-- The operator `a * b` on Numbers. -/
def mul : JSNum → JSNum → JSNum
  | nan, _ => nan
  | _, nan => nan
  | fin a, fin b => roundDouble (a * b)
  | fin a, posInf => if a = 0 then nan else if a < 0 then negInf else posInf
  | fin a, negInf => if a = 0 then nan else if a < 0 then posInf else negInf
  | posInf, fin b => if b = 0 then nan else if b < 0 then negInf else posInf
  | negInf, fin b => if b = 0 then nan else if b < 0 then posInf else negInf
  | posInf, posInf => posInf
  | posInf, negInf => negInf
  | negInf, posInf => negInf
  | negInf, negInf => posInf

end JSNum

/-! ## `getParameterStatus` -/

/-- One entry of the `thresholds` object: either bound may be undefined. -/
structure Threshold where
  min : Option JSNum
  max : Option JSNum
  deriving DecidableEq, Repr

/-- The object returned by `getParameterStatus`: `{ class, text }`. -/
structure Status where
  cssClass : String
  text : String
  deriving DecidableEq, Repr

/-- Property names every object literal inherits from `Object.prototype`; each is bound to
a function or object, which is truthy and has neither a `min` nor a `max` property. -/
def inheritedKeys : List String :=
  ["constructor", "__defineGetter__", "__defineSetter__", "hasOwnProperty",
   "__lookupGetter__", "__lookupSetter__", "isPrototypeOf", "propertyIsEnumerable",
   "toString", "valueOf", "__proto__", "toLocaleString"]

/-- The lookup `thresholds[param]`; `none` is `undefined`. -/
def thresholds (param : String) : Option Threshold :=
  if param = "ph" then some { min := some (lit (13/2)), max := some (lit (17/2)) }
  else if param = "turbidity" then some { min := none, max := some (lit 5) }
  else if param = "dissolved_oxygen" then some { min := some (lit 6), max := none }
  else if param = "conductivity" then some { min := none, max := some (lit 1000) }
  else if param = "temperature" then some { min := some (lit 10), max := some (lit 30) }
  else if param = "chlorine" then some { min := some (lit (1/5)), max := some (lit 4) }
  else if param = "nitrate" then some { min := none, max := some (lit 10) }
  else if param ∈ inheritedKeys then some { min := none, max := none }
  else none

/-- The function `getParameterStatus(param, value)` for a Number `value`. -/
def getParameterStatus (param : String) (value : JSNum) : Status :=
  match thresholds param with
  | none => { cssClass := "safe", text := "Normal" }
  | some threshold =>
    let isWarning := false
    let isDanger := false
    let (isWarning, isDanger) :=
      match threshold.min with
      | some tmin =>
        if value.lt tmin then
          (value.ge (tmin.mul (lit (9/10))), value.lt (tmin.mul (lit (9/10))))
        else (isWarning, isDanger)
      | none => (isWarning, isDanger)
    let (isWarning, isDanger) :=
      match threshold.max with
      | some tmax =>
        if value.gt tmax then
          (value.le (tmax.mul (lit (11/10))), value.gt (tmax.mul (lit (11/10))))
        else (isWarning, isDanger)
      | none => (isWarning, isDanger)
    if isDanger then { cssClass := "danger", text := "Danger" }
    else if isWarning then { cssClass := "warning", text := "Warning" }
    else { cssClass := "safe", text := "Normal" }

/-- The three results `getParameterStatus` can return. -/
def Status.normal : Status := { cssClass := "safe", text := "Normal" }

/-- The result for a value in the tolerance band. -/
def Status.warning : Status := { cssClass := "warning", text := "Warning" }

/-- The result for a value beyond the tolerance band. -/
def Status.danger : Status := { cssClass := "danger", text := "Danger" }

/-- The seven keys of the `thresholds` object. -/
def recognised : List String :=
  ["ph", "turbidity", "dissolved_oxygen", "conductivity", "temperature", "chlorine",
   "nitrate"]

/-- The `min` of a parameter's rule, when the parameter has a rule with a `min`. -/
def minOf (param : String) : Option JSNum := (thresholds param).bind Threshold.min

/-- The `max` of a parameter's rule, when the parameter has a rule with a `max`. -/
def maxOf (param : String) : Option JSNum := (thresholds param).bind Threshold.max

/-- The body of `getParameterStatus` below the lookup, for a rule `threshold`. -/
def classify (threshold : Threshold) (value : JSNum) : Status :=
  let isWarning := false
  let isDanger := false
  let (isWarning, isDanger) :=
    match threshold.min with
    | some tmin =>
      if value.lt tmin then
        (value.ge (tmin.mul (lit (9/10))), value.lt (tmin.mul (lit (9/10))))
      else (isWarning, isDanger)
    | none => (isWarning, isDanger)
  let (isWarning, isDanger) :=
    match threshold.max with
    | some tmax =>
      if value.gt tmax then
        (value.le (tmax.mul (lit (11/10))), value.gt (tmax.mul (lit (11/10))))
      else (isWarning, isDanger)
    | none => (isWarning, isDanger)
  if isDanger then { cssClass := "danger", text := "Danger" }
  else if isWarning then { cssClass := "warning", text := "Warning" }
  else { cssClass := "safe", text := "Normal" }

/-- A rule whose bounds and tolerance bands are finite and in increasing order:
`min * 0.9 ≤ min ≤ max ≤ max * 1.1`, as far as the bounds are defined. -/
structure Threshold.Ordered (t : Threshold) : Prop where
  min_band : ∀ m, t.min = some m →
    ∃ a a1 : ℚ, m = .fin a ∧ m.mul (lit (9/10)) = .fin a1 ∧ a1 ≤ a
  max_band : ∀ m, t.max = some m →
    ∃ b b1 : ℚ, m = .fin b ∧ m.mul (lit (11/10)) = .fin b1 ∧ b ≤ b1
  min_le_max : ∀ a b : ℚ, t.min = some (.fin a) → t.max = some (.fin b) → a ≤ b

/-! ### The classifier as the specification words it

Each bound is checked on its own and yields a pair `(isWarning, isDanger)`; the pairs
are then combined, Danger before Warning before Normal. -/

namespace Spec

/-- Lower-bound check, only if `min` is defined and `value < min`: Danger if
`value < min * 0.9`, else Warning. -/
def lowerCheck (t : Threshold) (value : JSNum) : Bool × Bool :=
  match t.min with
  | some tmin =>
    if value.lt tmin then
      (if value.lt (tmin.mul (lit (9/10))) then (false, true) else (true, false))
    else (false, false)
  | none => (false, false)

/-- Upper-bound check, only if `max` is defined and `value > max`: Danger if
`value > max * 1.1`, else Warning. -/
def upperCheck (t : Threshold) (value : JSNum) : Bool × Bool :=
  match t.max with
  | some tmax =>
    if value.gt tmax then
      (if value.gt (tmax.mul (lit (11/10))) then (false, true) else (true, false))
    else (false, false)
  | none => (false, false)

/-- Danger takes precedence over Warning, which takes precedence over Normal. -/
def combine (lower upper : Bool × Bool) : Status :=
  if lower.2 || upper.2 then Status.danger
  else if lower.1 || upper.1 then Status.warning
  else Status.normal

/-- The classifier of the specification: no rule gives Normal, otherwise the two checks
are evaluated independently and combined. -/
def classify (name : String) (value : JSNum) : Status :=
  match thresholds name with
  | none => Status.normal
  | some t => combine (lowerCheck t value) (upperCheck t value)

end Spec

/-- The parameters the specification lists as having a `max`, with the value it gives. -/
def Spec.maxTable : List (String × JSNum) :=
  [("ph", lit (17/2)), ("turbidity", lit 5), ("conductivity", lit 1000),
   ("temperature", lit 30), ("chlorine", lit 4), ("nitrate", lit 10)]

/-- The parameters the specification lists as having a `min`, with the value it gives. -/
def Spec.minTable : List (String × JSNum) :=
  [("ph", lit (13/2)), ("dissolved_oxygen", lit 6), ("temperature", lit 10),
   ("chlorine", lit (1/5))]

/-! ## JSON values and `toFixed` -/

/-- A value read from a parsed JSON body; `undefined` is a missing property and `object`
stands for any object or array. -/
inductive JSVal where
  | undefined
  | null
  | bool (b : Bool)
  | num (x : JSNum)
  | str (s : String)
  | object
  deriving DecidableEq, Repr

/-- The comparison `v === n` against a Number: no conversion, `NaN` equals nothing. -/
def JSVal.strictEqNum (v : JSVal) (n : JSNum) : Bool :=
  match v with
  | .num x => !(x.isNaN || n.isNaN) && decide (x = n)
  | _ => false

/-- The integer `n` for which `n / 10 - x` is as close to zero as possible, the larger one
if there are two (`x ≥ 0`). -/
def nearestTenth (x : ℚ) : ℕ := (x * 10 + 1/2).floor.toNat

/-- Steps 11.b and 11.c of `Number.prototype.toFixed` for one fraction digit: the decimal
digits of `n`, padded to two digits, with a point before the last one. -/
def fixedDigits (n : ℕ) : String :=
  let m := Nat.toDigits 10 n
  let m := if m.length ≤ 1 then '0' :: m else m
  String.mk (m.take (m.length - 1) ++ '.' :: m.drop (m.length - 1))

/-- The call `x.toFixed(1)`.  A finite value of magnitude `10^21` or more is printed by
the engine's `Number::toString`, which is the parameter `numberToString`. -/
def toFixed1 (numberToString : ℚ → String) (x : JSNum) : String :=
  match x with
  | .nan => "NaN"
  | .posInf => "Infinity"
  | .negInf => "-Infinity"
  | .fin q =>
    let s := if q < 0 then "-" else ""
    let a := if q < 0 then -q else q
    if a ≥ 10 ^ 21 then s ++ numberToString a
    else s ++ fixedDigits (nearestTenth a)

/-! ## The submit handler: rendering a prediction response -/

/-- The body of a prediction response, as the success callback reads it. -/
structure PredictionResponse where
  prediction : JSVal
  safe_probability : JSNum
  contaminant_probability : JSNum
  deriving DecidableEq, Repr

/-- What the success callback writes for the verdict: `qualityText.textContent`,
`qualityText.style.color`, `probabilityBar.innerHTML` and `probabilityText.textContent`. -/
structure Verdict where
  qualityText : String
  qualityColor : String
  probabilityBar : String
  probabilityText : String
  deriving DecidableEq, Repr

/-- The markup of the probability bar for a width (in percent) and a colour. -/
def barMarkup (width color : String) : String :=
  "<div style=\"width: " ++ width ++ "%; background-color: " ++ color ++ "\"></div>"

/-- The verdict part of the success callback of the submit handler. -/
def renderVerdict (numberToString : ℚ → String) (data : PredictionResponse) : Verdict :=
  let isSafe := data.prediction.strictEqNum (lit 0)
  let safeProbability := toFixed1 numberToString (data.safe_probability.mul (lit 100))
  let contamProbability :=
    toFixed1 numberToString (data.contaminant_probability.mul (lit 100))
  { qualityText :=
      if isSafe then "Water is SAFE to drink" else "WARNING: Water is CONTAMINATED"
    qualityColor := if isSafe then "#2ecc71" else "#e74c3c"
    probabilityBar := barMarkup safeProbability (if isSafe then "#2ecc71" else "#e74c3c")
    probabilityText :=
      if isSafe then safeProbability ++ "% safe"
      else contamProbability ++ "% contaminated" }

/-! ## `loadAlerts` -/

/-- A value produced by `JSON.parse`; the members of an object are in source order. -/
inductive Json where
  | null
  | bool (b : Bool)
  | num (x : JSNum)
  | str (s : String)
  | arr (items : List Json)
  | obj (members : List (String × Json))

/-- The property read `value[key]` on a value other than `null`, for a key that no
prototype defines: the own member of an object (the last one of that name, as
`JSON.parse` keeps it), and `undefined` (`none`) on anything else. -/
def Json.get (value : Json) (key : String) : Option Json :=
  match value with
  | .obj members => members.reverse.lookup key
  | _ => none

mutual
/-- Whether `ToString(value)` throws a TypeError.  An object with an own `toString` member
has no callable `toString` (a parsed member is never a function) and its `valueOf` does not
return a primitive; an array is joined, which converts every element; every other object
prints as `[object Object]`. -/
def Json.toStringThrows : Json → Bool
  | .arr items => Json.anyToStringThrows items
  | .obj members => members.any (fun m => m.1 == "toString")
  | _ => false
/-- Whether `ToString` throws on one of the elements of an array. -/
def Json.anyToStringThrows : List Json → Bool
  | [] => false
  | item :: rest => item.toStringThrows || Json.anyToStringThrows rest
end

/-- The comparison `v === s` of a property (`none` is `undefined`) with a String. -/
def Json.strictEqStr (v : Option Json) (s : String) : Bool :=
  match v with
  | some (.str t) => decide (t = s)
  | _ => false

/-- How the two promises before the rendering callback settle. -/
inductive FetchOutcome where
  | rejected
  | bodyNotJson
  | parsed (alerts : Json)

/-- A child of the alerts container. -/
inductive Node where
  | alertCard (className : String) (innerHTML : String)
  | paragraph (text : String)
  | other (html : String)
  deriving DecidableEq, Repr

/-- The class suffix chosen from `alert.severity`. -/
def severitySuffix (severity : Option Json) : String :=
  if Json.strictEqStr severity "high" then ""
  else if Json.strictEqStr severity "medium" then "warning" else "info"

/-- The properties of `alert` the template literal of the card converts to a string, in
order; `timestamp` goes through `new Date(...)`, which converts an object or array the
same way. -/
def cardFields : List String :=
  ["location", "parameter", "value", "threshold", "timestamp", "severity"]

/-- Whether the callback of `forEach` throws on `alert`: reading `alert.severity` of `null`
throws, and so does the template literal when the conversion of a property throws. -/
def renderThrows (alert : Json) : Bool :=
  match alert with
  | .null => true
  | _ =>
    cardFields.any fun key =>
      match alert.get key with
      | some v => v.toStringThrows
      | none => false

/-- The element built for one record on which the callback does not throw; `cardBody` is
the markup of the card, which depends on the locale through the formatted timestamp. -/
def alertElement (cardBody : Json → String) (alert : Json) : Node :=
  .alertCard ("alert " ++ severitySuffix (alert.get "severity")) (cardBody alert)

/-- The loop `alerts.forEach(...)`: the container after the loop, and whether the loop
threw.  A throw leaves the cards appended so far and appends nothing more. -/
def forEachAlert (cardBody : Json → String) : List Json → List Node → List Node × Bool
  | [], container => (container, false)
  | alert :: rest, container =>
    if renderThrows alert then (container, true)
    else forEachAlert cardBody rest (container ++ [alertElement cardBody alert])

/-- The promise chain of `loadAlerts` up to `.catch`: the container it leaves, and whether
the chain is rejected.  Only an array has a `forEach` method. -/
def alertsChain (cardBody : Json → String) (outcome : FetchOutcome)
    (container : List Node) : List Node × Bool :=
  match outcome with
  | .rejected => (container, true)
  | .bodyNotJson => (container, true)
  | .parsed alerts =>
    let container : List Node := []
    match alerts with
    | .arr items => forEachAlert cardBody items container
    | _ => (container, true)

/-- The fallback message of the `.catch` handler. -/
def fallbackMessage : Node := .paragraph "Unable to load alerts. Please try again later."

/-- The function `loadAlerts`: the children of the alerts container once the promise chain
has settled. -/
def loadAlerts (cardBody : Json → String) (outcome : FetchOutcome)
    (container : List Node) : List Node :=
  let (container, failed) := alertsChain cardBody outcome container
  if failed then [fallbackMessage] else container

/-- Loading the feed fails: the fetch rejects, the body does not parse, the parsed value
is not an array, or rendering one of the records throws. -/
def FetchOutcome.fails : FetchOutcome → Bool
  | .rejected => true
  | .bodyNotJson => true
  | .parsed (.arr items) => items.any renderThrows
  | .parsed _ => true

/-! ## Evaluated constants -/

theorem thresholds_ph :
    thresholds "ph" = some { min := some (.fin (13/2)), max := some (.fin (17/2)) } := by
  decide!

theorem thresholds_turbidity :
    thresholds "turbidity" = some { min := none, max := some (.fin 5) } := by decide!

theorem thresholds_dissolved_oxygen :
    thresholds "dissolved_oxygen" = some { min := some (.fin 6), max := none } := by decide!

theorem thresholds_conductivity :
    thresholds "conductivity" = some { min := none, max := some (.fin 1000) } := by decide!

theorem thresholds_temperature :
    thresholds "temperature" = some { min := some (.fin 10), max := some (.fin 30) } := by
  decide!

theorem thresholds_chlorine :
    thresholds "chlorine" = some { min := some (.fin (3602879701896397/18014398509481984)),
                                   max := some (.fin 4) } := by
  decide!

theorem thresholds_nitrate :
    thresholds "nitrate" = some { min := none, max := some (.fin 10) } := by decide!

theorem band_ph_min :
    (JSNum.fin (13/2)).mul (lit (9/10)) = .fin (6586514455029351/1125899906842624) := by
  decide!

theorem band_ph_max :
    (JSNum.fin (17/2)).mul (lit (11/10)) = .fin (1315895516122317/140737488355328) := by
  decide!

theorem band_turbidity_max : (JSNum.fin 5).mul (lit (11/10)) = .fin (11/2) := by decide!

theorem band_dissolved_oxygen_min :
    (JSNum.fin 6).mul (lit (9/10)) = .fin (3039929748475085/562949953421312) := by decide!

theorem band_conductivity_max : (JSNum.fin 1000).mul (lit (11/10)) = .fin 1100 := by decide!

theorem band_temperature_min : (JSNum.fin 10).mul (lit (9/10)) = .fin 9 := by decide!

theorem band_temperature_max : (JSNum.fin 30).mul (lit (11/10)) = .fin 33 := by decide!

theorem band_chlorine_min :
    (JSNum.fin (3602879701896397/18014398509481984)).mul (lit (9/10))
      = .fin (6485183463413515/36028797018963968) := by decide!

theorem band_chlorine_max :
    (JSNum.fin 4).mul (lit (11/10)) = .fin (2476979795053773/562949953421312) := by decide!

theorem band_nitrate_max : (JSNum.fin 10).mul (lit (11/10)) = .fin 11 := by decide!

theorem getParameterStatus_of_some {param : String} {t : Threshold}
    (h : thresholds param = some t) (v : JSNum) :
    getParameterStatus param v = classify t v := by
  simp only [getParameterStatus, h, classify]

theorem getParameterStatus_of_none {param : String}
    (h : thresholds param = none) (v : JSNum) :
    getParameterStatus param v = Status.normal := by
  simp only [getParameterStatus, h, Status.normal]


theorem ordered_both {a a1 b b1 : ℚ} (h1 : (JSNum.fin a).mul (lit (9/10)) = .fin a1)
    (h2 : (JSNum.fin b).mul (lit (11/10)) = .fin b1) (ha : a1 ≤ a) (hab : a ≤ b)
    (hb : b ≤ b1) :
    Threshold.Ordered { min := some (.fin a), max := some (.fin b) } := by
  refine ⟨?_, ?_, ?_⟩
  · intro m hm
    simp only [Option.some.injEq] at hm
    subst hm
    exact ⟨a, a1, rfl, h1, ha⟩
  · intro m hm
    simp only [Option.some.injEq] at hm
    subst hm
    exact ⟨b, b1, rfl, h2, hb⟩
  · intro x y hx hy
    simp only [Option.some.injEq, JSNum.fin.injEq] at hx hy
    subst hx hy
    exact hab

theorem ordered_min {a a1 : ℚ} (h1 : (JSNum.fin a).mul (lit (9/10)) = .fin a1)
    (ha : a1 ≤ a) :
    Threshold.Ordered { min := some (.fin a), max := none } := by
  refine ⟨?_, ?_, ?_⟩
  · intro m hm
    simp only [Option.some.injEq] at hm
    subst hm
    exact ⟨a, a1, rfl, h1, ha⟩
  · intro m hm
    simp at hm
  · intro x y _ hy
    simp at hy

theorem ordered_max {b b1 : ℚ} (h2 : (JSNum.fin b).mul (lit (11/10)) = .fin b1)
    (hb : b ≤ b1) :
    Threshold.Ordered { min := none, max := some (.fin b) } := by
  refine ⟨?_, ?_, ?_⟩
  · intro m hm
    simp at hm
  · intro m hm
    simp only [Option.some.injEq] at hm
    subst hm
    exact ⟨b, b1, rfl, h2, hb⟩
  · intro x y hx _
    simp at hx

/-- Every recognised parameter has a rule, and the rule is ordered. -/
theorem ordered_of_recognised {param : String} (h : param ∈ recognised) :
    ∃ t, thresholds param = some t ∧ t.Ordered := by
  simp only [recognised, List.mem_cons, List.mem_singleton, List.not_mem_nil, or_false] at h
  rcases h with rfl | rfl | rfl | rfl | rfl | rfl | rfl
  · exact ⟨_, thresholds_ph,
      ordered_both band_ph_min band_ph_max (by norm_num) (by norm_num) (by norm_num)⟩
  · exact ⟨_, thresholds_turbidity, ordered_max band_turbidity_max (by norm_num)⟩
  · exact ⟨_, thresholds_dissolved_oxygen,
      ordered_min band_dissolved_oxygen_min (by norm_num)⟩
  · exact ⟨_, thresholds_conductivity, ordered_max band_conductivity_max (by norm_num)⟩
  · exact ⟨_, thresholds_temperature,
      ordered_both band_temperature_min band_temperature_max (by norm_num) (by norm_num)
        (by norm_num)⟩
  · exact ⟨_, thresholds_chlorine,
      ordered_both band_chlorine_min band_chlorine_max (by norm_num) (by norm_num)
        (by norm_num)⟩
  · exact ⟨_, thresholds_nitrate, ordered_max band_nitrate_max (by norm_num)⟩

/-- The shape of an ordered rule: each bound is absent or finite together with its band. -/
theorem Threshold.Ordered.shape {t : Threshold} (ht : t.Ordered) :
    (t.min = none ∨ ∃ a a1 : ℚ, t.min = some (.fin a) ∧
        (JSNum.fin a).mul (lit (9/10)) = .fin a1 ∧ a1 ≤ a) ∧
    (t.max = none ∨ ∃ b b1 : ℚ, t.max = some (.fin b) ∧
        (JSNum.fin b).mul (lit (11/10)) = .fin b1 ∧ b ≤ b1) := by
  constructor
  · cases hmin : t.min with
    | none => exact Or.inl rfl
    | some m =>
      obtain ⟨a, a1, rfl, h1, ha⟩ := ht.min_band m hmin
      exact Or.inr ⟨a, a1, rfl, h1, ha⟩
  · cases hmax : t.max with
    | none => exact Or.inl rfl
    | some m =>
      obtain ⟨b, b1, rfl, h2, hb⟩ := ht.max_band m hmax
      exact Or.inr ⟨b, b1, rfl, h2, hb⟩


theorem classify_normal_iff {t : Threshold} (ht : t.Ordered) (v : JSNum) :
    classify t v = Status.normal ↔
      (∀ m, t.min = some m → v.lt m = false) ∧ (∀ m, t.max = some m → v.gt m = false) := by
  obtain ⟨hmin, hmax⟩ := ht.shape
  have hord := ht.min_le_max
  obtain ⟨tmin, tmax⟩ := t
  simp only at hmin hmax hord
  rcases hmin with rfl | ⟨a, a1, rfl, h1, ha⟩ <;> rcases hmax with rfl | ⟨b, b1, rfl, h2, hb⟩
  · simp [classify, Status.normal]
  · cases v with
    | fin q =>
      by_cases c3 : b < q <;> by_cases c4 : b1 < q <;>
        simp [classify, Status.normal, h2, JSNum.lt, JSNum.gt, JSNum.le, JSNum.ge,
          JSNum.isNaN, c3, c4]
    | _ => simp [classify, Status.normal, h2, JSNum.lt, JSNum.gt, JSNum.le, JSNum.ge,
          JSNum.isNaN]
  · cases v with
    | fin q =>
      by_cases c1 : q < a <;> by_cases c2 : q < a1 <;>
        simp [classify, Status.normal, h1, JSNum.lt, JSNum.gt, JSNum.le, JSNum.ge,
          JSNum.isNaN, c1, c2]
    | _ => simp [classify, Status.normal, h1, JSNum.lt, JSNum.gt, JSNum.le, JSNum.ge,
          JSNum.isNaN]
  · have hab : a ≤ b := hord a b rfl rfl
    cases v with
    | fin q =>
      by_cases c1 : q < a <;> by_cases c2 : q < a1 <;> by_cases c3 : b < q <;>
        by_cases c4 : b1 < q <;>
        simp [classify, Status.normal, h1, h2, JSNum.lt, JSNum.gt, JSNum.le, JSNum.ge,
          JSNum.isNaN, c1, c2, c3, c4]
    | _ => simp [classify, Status.normal, h1, h2, JSNum.lt, JSNum.gt, JSNum.le, JSNum.ge,
          JSNum.isNaN]


theorem classify_above {t : Threshold} (ht : t.Ordered) (v m : JSNum)
    (hm : t.max = some m) :
    (v.gt m = true → v.le (m.mul (lit (11/10))) = true → classify t v = Status.warning) ∧
    (v.gt (m.mul (lit (11/10))) = true → classify t v = Status.danger) := by
  obtain ⟨hmin, hmax⟩ := ht.shape
  have hord := ht.min_le_max
  obtain ⟨tmin, tmax⟩ := t
  simp only at hmin hmax hord hm
  subst hm
  rcases hmax with hmax | ⟨b, b1, hb0, h2, hb⟩
  · simp at hmax
  simp only [Option.some.injEq] at hb0
  subst hb0
  rcases hmin with rfl | ⟨a, a1, rfl, h1, ha⟩
  · cases v with
    | fin q =>
      by_cases c3 : b < q <;> by_cases c4 : b1 < q <;>
        simp [classify, Status.warning, Status.danger, h2, JSNum.lt, JSNum.gt, JSNum.le,
          JSNum.ge, JSNum.isNaN, c3, c4]
      linarith
    | _ => simp [classify, Status.warning, Status.danger, h2, JSNum.lt, JSNum.gt, JSNum.le,
          JSNum.ge, JSNum.isNaN]
  · have hab : a ≤ b := hord a b rfl rfl
    cases v with
    | fin q =>
      by_cases c1 : q < a <;> by_cases c2 : q < a1 <;> by_cases c3 : b < q <;>
        by_cases c4 : b1 < q <;>
        simp [classify, Status.warning, Status.danger, h1, h2, JSNum.lt, JSNum.gt,
          JSNum.le, JSNum.ge, JSNum.isNaN, c1, c2, c3, c4] <;> linarith
    | _ => simp [classify, Status.warning, Status.danger, h1, h2, JSNum.lt, JSNum.gt,
          JSNum.le, JSNum.ge, JSNum.isNaN]

theorem classify_below {t : Threshold} (ht : t.Ordered) (v m : JSNum)
    (hm : t.min = some m) :
    ((m.mul (lit (9/10))).le v = true → v.lt m = true → classify t v = Status.warning) ∧
    (v.lt (m.mul (lit (9/10))) = true → classify t v = Status.danger) := by
  obtain ⟨hmin, hmax⟩ := ht.shape
  have hord := ht.min_le_max
  obtain ⟨tmin, tmax⟩ := t
  simp only at hmin hmax hord hm
  subst hm
  rcases hmin with hmin | ⟨a, a1, ha0, h1, ha⟩
  · simp at hmin
  simp only [Option.some.injEq] at ha0
  subst ha0
  rcases hmax with rfl | ⟨b, b1, rfl, h2, hb⟩
  · cases v with
    | fin q =>
      by_cases c1 : q < a <;> by_cases c2 : q < a1 <;>
        simp [classify, Status.warning, Status.danger, h1, JSNum.lt, JSNum.gt, JSNum.le,
          JSNum.ge, JSNum.isNaN, c1, c2]
      linarith
    | _ => simp [classify, Status.warning, Status.danger, h1, JSNum.lt, JSNum.gt, JSNum.le,
          JSNum.ge, JSNum.isNaN]
  · have hab : a ≤ b := hord a b rfl rfl
    cases v with
    | fin q =>
      by_cases c1 : q < a <;> by_cases c2 : q < a1 <;> by_cases c3 : b < q <;>
        by_cases c4 : b1 < q <;>
        simp [classify, Status.warning, Status.danger, h1, h2, JSNum.lt, JSNum.gt,
          JSNum.le, JSNum.ge, JSNum.isNaN, c1, c2, c3, c4] <;> linarith
    | _ => simp [classify, Status.warning, Status.danger, h1, h2, JSNum.lt, JSNum.gt,
          JSNum.le, JSNum.ge, JSNum.isNaN]

theorem classify_eq_combine {t : Threshold} (ht : t.Ordered) (v : JSNum) :
    classify t v = Spec.combine (Spec.lowerCheck t v) (Spec.upperCheck t v) := by
  obtain ⟨hmin, hmax⟩ := ht.shape
  have hord := ht.min_le_max
  obtain ⟨tmin, tmax⟩ := t
  simp only at hmin hmax hord
  rcases hmin with rfl | ⟨a, a1, rfl, h1, ha⟩ <;> rcases hmax with rfl | ⟨b, b1, rfl, h2, hb⟩
  · simp [classify, Spec.combine, Spec.lowerCheck, Spec.upperCheck, Status.normal]
  · cases v with
    | fin q =>
      by_cases c3 : b < q <;> by_cases c4 : b1 < q <;>
        simp [classify, Spec.combine, Spec.lowerCheck, Spec.upperCheck, Status.normal,
          Status.warning, Status.danger, h2, JSNum.lt, JSNum.gt, JSNum.le,
          JSNum.ge, JSNum.isNaN, c3, c4]
    | _ => simp [classify, Spec.combine, Spec.lowerCheck, Spec.upperCheck, Status.normal,
          Status.warning, Status.danger, h2, JSNum.lt, JSNum.gt, JSNum.le,
          JSNum.ge, JSNum.isNaN]
  · cases v with
    | fin q =>
      by_cases c1 : q < a <;> by_cases c2 : q < a1 <;>
        simp [classify, Spec.combine, Spec.lowerCheck, Spec.upperCheck, Status.normal,
          Status.warning, Status.danger, h1, JSNum.lt, JSNum.gt, JSNum.le,
          JSNum.ge, JSNum.isNaN, c1, c2]
    | _ => simp [classify, Spec.combine, Spec.lowerCheck, Spec.upperCheck, Status.normal,
          Status.warning, Status.danger, h1, JSNum.lt, JSNum.gt, JSNum.le,
          JSNum.ge, JSNum.isNaN]
  · have hab : a ≤ b := hord a b rfl rfl
    cases v with
    | fin q =>
      by_cases c1 : q < a <;> by_cases c2 : q < a1 <;> by_cases c3 : b < q <;>
        by_cases c4 : b1 < q <;>
        simp [classify, Spec.combine, Spec.lowerCheck, Spec.upperCheck, Status.normal,
          Status.warning, Status.danger, h1, h2, JSNum.lt, JSNum.gt, JSNum.le,
          JSNum.ge, JSNum.isNaN, c1, c2, c3, c4]
      linarith
    | _ => simp [classify, Spec.combine, Spec.lowerCheck, Spec.upperCheck, Status.normal,
          Status.warning, Status.danger, h1, h2, JSNum.lt, JSNum.gt, JSNum.le,
          JSNum.ge, JSNum.isNaN]


theorem recognised_of_maxOf {param : String} {m : JSNum} (h : maxOf param = some m) :
    param ∈ recognised := by
  unfold maxOf thresholds at h
  unfold recognised
  split_ifs at h <;> simp_all

theorem recognised_of_minOf {param : String} {m : JSNum} (h : minOf param = some m) :
    param ∈ recognised := by
  unfold minOf thresholds at h
  unfold recognised
  split_ifs at h <;> simp_all

/-! ## The claims on `getParameterStatus` -/

/-- C1: for each of the seven recognised parameters and every Number `v`,
`getParameterStatus` returns Normal exactly when `v` is not below the rule's `min` (when
the rule has one) and not above its `max` (when the rule has one). -/
theorem getParameterStatus_normal_iff (param : String) (v : JSNum)
    (h : param ∈ recognised) :
    getParameterStatus param v = Status.normal ↔
      (∀ m, minOf param = some m → v.lt m = false) ∧
      (∀ m, maxOf param = some m → v.gt m = false) := by
  obtain ⟨t, ht, hord⟩ := ordered_of_recognised h
  rw [getParameterStatus_of_some ht]
  simpa only [minOf, maxOf, ht, Option.some_bind] using classify_normal_iff hord v


/-- Witness of C1: turbidity 4.9 is below the `max` of 5 and is Normal. -/
theorem getParameterStatus_normal_iff_witness :
    "turbidity" ∈ recognised ∧
      getParameterStatus "turbidity" (lit (49/10)) = Status.normal := by
  refine ⟨by decide, (getParameterStatus_normal_iff "turbidity" (lit (49/10))
    (by decide)).mpr ⟨?_, ?_⟩⟩
  · intro m hm
    rw [show minOf "turbidity" = none by decide!] at hm
    cases hm
  · intro m hm
    rw [show maxOf "turbidity" = some (.fin 5) by decide!] at hm
    cases hm
    decide!

/-- C2: the parameters with a `max` are ph 8.5, turbidity 5, conductivity 1000,
temperature 30, chlorine 4 and nitrate 10; for each of them and every Number `v`,
`max < v <= max * 1.1` gives Warning and `v > max * 1.1` gives Danger. -/
theorem getParameterStatus_above_max (param : String) (m v : JSNum) :
    (maxOf param = some m ↔ (param, m) ∈ Spec.maxTable) ∧
    (maxOf param = some m →
      (v.gt m = true → v.le (m.mul (lit (11/10))) = true →
        getParameterStatus param v = Status.warning) ∧
      (v.gt (m.mul (lit (11/10))) = true → getParameterStatus param v = Status.danger)) := by
  refine ⟨⟨fun h => ?_, fun h => ?_⟩, fun hm => ?_⟩
  · unfold maxOf thresholds at h
    unfold Spec.maxTable
    split_ifs at h <;> simp_all
  · simp only [Spec.maxTable, List.mem_cons, List.mem_singleton, List.not_mem_nil, or_false,
      Prod.mk.injEq] at h
    rcases h with ⟨rfl, rfl⟩ | ⟨rfl, rfl⟩ | ⟨rfl, rfl⟩ | ⟨rfl, rfl⟩ | ⟨rfl, rfl⟩ | ⟨rfl, rfl⟩ <;>
      rfl
  · obtain ⟨t, ht, hord⟩ := ordered_of_recognised (recognised_of_maxOf hm)
    rw [getParameterStatus_of_some ht]
    simp only [maxOf, ht, Option.some_bind] at hm
    exact classify_above hord v m hm

/-- Witness of C2: turbidity has `max` 5, so 5.4 is Warning and 6.0 is Danger. -/
theorem getParameterStatus_above_max_witness :
    maxOf "turbidity" = some (lit 5) ∧
      getParameterStatus "turbidity" (lit (27/5)) = Status.warning ∧
      getParameterStatus "turbidity" (lit 6) = Status.danger :=
  ⟨by decide!,
   ((getParameterStatus_above_max "turbidity" (lit 5) (lit (27/5))).2 (by decide!)).1
     (by decide!) (by decide!),
   ((getParameterStatus_above_max "turbidity" (lit 5) (lit 6)).2 (by decide!)).2
     (by decide!)⟩

/-- C3: the parameters with a `min` are ph 6.5, dissolved_oxygen 6, temperature 10 and
chlorine 0.2; for each of them and every Number `v`, `min * 0.9 <= v < min` gives Warning
and `v < min * 0.9` gives Danger. -/
theorem getParameterStatus_below_min (param : String) (m v : JSNum) :
    (minOf param = some m ↔ (param, m) ∈ Spec.minTable) ∧
    (minOf param = some m →
      ((m.mul (lit (9/10))).le v = true → v.lt m = true →
        getParameterStatus param v = Status.warning) ∧
      (v.lt (m.mul (lit (9/10))) = true → getParameterStatus param v = Status.danger)) := by
  refine ⟨⟨fun h => ?_, fun h => ?_⟩, fun hm => ?_⟩
  · unfold minOf thresholds at h
    unfold Spec.minTable
    split_ifs at h <;> simp_all
  · simp only [Spec.minTable, List.mem_cons, List.mem_singleton, List.not_mem_nil, or_false,
      Prod.mk.injEq] at h
    rcases h with ⟨rfl, rfl⟩ | ⟨rfl, rfl⟩ | ⟨rfl, rfl⟩ | ⟨rfl, rfl⟩ <;> rfl
  · obtain ⟨t, ht, hord⟩ := ordered_of_recognised (recognised_of_minOf hm)
    rw [getParameterStatus_of_some ht]
    simp only [minOf, ht, Option.some_bind] at hm
    exact classify_below hord v m hm

/-- Witness of C3: ph has `min` 6.5, so 6.0 is Warning and 5.8 is Danger. -/
theorem getParameterStatus_below_min_witness :
    minOf "ph" = some (lit (13/2)) ∧
      getParameterStatus "ph" (lit 6) = Status.warning ∧
      getParameterStatus "ph" (lit (29/5)) = Status.danger :=
  ⟨by decide!,
   ((getParameterStatus_below_min "ph" (lit (13/2)) (lit 6)).2 (by decide!)).1
     (by decide!) (by decide!),
   ((getParameterStatus_below_min "ph" (lit (13/2)) (lit (29/5))).2 (by decide!)).2
     (by decide!)⟩

/-- C4: for a name that is not one of the seven recognised names, and every value,
`getParameterStatus` returns `( class: 'safe', text: 'Normal' )`: the lookup yields no
bound, so the value is never compared and the result is neither Warning nor Danger. -/
theorem getParameterStatus_unknown (param : String) (v : JSNum)
    (h : param ∉ recognised) :
    getParameterStatus param v = { cssClass := "safe", text := "Normal" } ∧
      minOf param = none ∧ maxOf param = none := by
  simp only [recognised, List.mem_cons, List.mem_singleton, List.not_mem_nil, or_false,
    not_or] at h
  obtain ⟨h1, h2, h3, h4, h5, h6, h7⟩ := h
  by_cases hk : param ∈ inheritedKeys
  · have ht : thresholds param = some { min := none, max := none } := by
      simp only [thresholds, h1, h2, h3, h4, h5, h6, h7, hk, if_false, if_true]
    rw [getParameterStatus_of_some ht]
    exact ⟨rfl, by simp only [minOf, ht, Option.some_bind],
      by simp only [maxOf, ht, Option.some_bind]⟩
  · have ht : thresholds param = none := by
      simp only [thresholds, h1, h2, h3, h4, h5, h6, h7, hk, if_false]
    rw [getParameterStatus_of_none ht]
    exact ⟨rfl, by simp only [minOf, ht, Option.none_bind],
      by simp only [maxOf, ht, Option.none_bind]⟩

/-- Witness of C4: the unknown name `salinity`, and the inherited name `toString`. -/
theorem getParameterStatus_unknown_witness :
    getParameterStatus "salinity" (lit 1000000) = { cssClass := "safe", text := "Normal" } ∧
    getParameterStatus "toString" .nan = { cssClass := "safe", text := "Normal" } :=
  ⟨(getParameterStatus_unknown "salinity" (lit 1000000) (by decide)).1,
   (getParameterStatus_unknown "toString" .nan (by decide)).1⟩

/-- C5: for each recognised parameter and every Number, `getParameterStatus` equals the
combination of the lower-bound check and the upper-bound check evaluated independently,
Danger before Warning before Normal. -/
theorem getParameterStatus_eq_spec (param : String) (v : JSNum)
    (h : param ∈ recognised) :
    getParameterStatus param v = Spec.classify param v := by
  obtain ⟨t, ht, hord⟩ := ordered_of_recognised h
  rw [getParameterStatus_of_some ht]
  simp only [Spec.classify, ht]
  exact classify_eq_combine hord v

/-- Witness of C5: chlorine 0.15 is below `min * 0.9` and both sides are Danger. -/
theorem getParameterStatus_eq_spec_witness :
    "chlorine" ∈ recognised ∧
      getParameterStatus "chlorine" (lit (3/20)) = Spec.classify "chlorine" (lit (3/20)) ∧
      Spec.classify "chlorine" (lit (3/20)) = Status.danger :=
  ⟨by decide, getParameterStatus_eq_spec "chlorine" (lit (3/20)) (by decide), by decide!⟩


/-! ## The claims on the verdict -/

theorem lit_zero : lit 0 = .fin 0 := by
  simp [lit, roundDouble]

theorem strictEqNum_zero (v : JSVal) :
    v.strictEqNum (lit 0) = decide (v = .num (.fin 0)) := by
  rw [lit_zero]
  cases v with
  | num x => cases x <;> simp [JSVal.strictEqNum, JSNum.isNaN]
  | _ => simp [JSVal.strictEqNum]

/-- C6: the verdict label is 'Water is SAFE to drink' and the colour `#2ecc71` exactly when
the prediction is the Number 0; for every other prediction the label is
'WARNING: Water is CONTAMINATED' and the colour `#e74c3c`; neither depends on the
probabilities. -/
theorem renderVerdict_label (f g : ℚ → String) (data : PredictionResponse)
    (p q : JSNum) :
    ((renderVerdict f data).qualityText, (renderVerdict f data).qualityColor) =
      (if data.prediction = .num (.fin 0) then ("Water is SAFE to drink", "#2ecc71")
       else ("WARNING: Water is CONTAMINATED", "#e74c3c")) ∧
    ((renderVerdict f data).qualityText = "Water is SAFE to drink" ↔
      data.prediction = .num (.fin 0)) ∧
    ((renderVerdict f data).qualityColor = "#2ecc71" ↔ data.prediction = .num (.fin 0)) ∧
    (renderVerdict g { data with safe_probability := p, contaminant_probability := q }).qualityText
      = (renderVerdict f data).qualityText ∧
    (renderVerdict g { data with safe_probability := p, contaminant_probability := q }).qualityColor
      = (renderVerdict f data).qualityColor := by
  simp only [renderVerdict, strictEqNum_zero, decide_eq_true_eq]
  by_cases h : data.prediction = .num (.fin 0) <;> simp [h]

/-- The tenth chosen by `toFixed(1)` is nearest to `a`, and the larger one on a tie. -/
theorem nearestTenth_nearest (a : ℚ) (ha : 0 ≤ a) (k : ℤ) :
    |(nearestTenth a : ℚ) / 10 - a| ≤ 1 / 20 ∧
    |(nearestTenth a : ℚ) / 10 - a| ≤ |(k : ℚ) / 10 - a| ∧
    (|(k : ℚ) / 10 - a| = |(nearestTenth a : ℚ) / 10 - a| → k ≤ (nearestTenth a : ℤ)) := by
  have hfl : (a * 10 + 1 / 2).floor = ⌊a * 10 + 1 / 2⌋ := rfl
  have hnn : 0 ≤ ⌊a * 10 + 1 / 2⌋ := Int.floor_nonneg.mpr (by linarith)
  have hcast : ((nearestTenth a : ℕ) : ℤ) = ⌊a * 10 + 1 / 2⌋ := by
    rw [nearestTenth, hfl, Int.toNat_of_nonneg hnn]
  have hq : (nearestTenth a : ℚ) = ((⌊a * 10 + 1 / 2⌋ : ℤ) : ℚ) := by
    rw [← hcast]; simp
  have h1 : ((⌊a * 10 + 1 / 2⌋ : ℤ) : ℚ) ≤ a * 10 + 1 / 2 := Int.floor_le _
  have h2 : a * 10 + 1 / 2 < ((⌊a * 10 + 1 / 2⌋ : ℤ) : ℚ) + 1 := Int.lt_floor_add_one _
  rw [hq, hcast]
  set n : ℤ := ⌊a * 10 + 1 / 2⌋ with hn
  have hn_abs : |(n : ℚ) / 10 - a| ≤ 1 / 20 := by
    rw [abs_le]; constructor <;> linarith
  refine ⟨hn_abs, ?_, ?_⟩
  · rcases lt_trichotomy k n with hk | hk | hk
    · have : (k : ℚ) + 1 ≤ n := by exact_mod_cast hk
      have : 1 / 20 ≤ |(k : ℚ) / 10 - a| := by
        rw [le_abs]; right; linarith
      linarith
    · rw [hk]
    · have : (n : ℚ) + 1 ≤ k := by exact_mod_cast hk
      have : 1 / 20 ≤ |(k : ℚ) / 10 - a| := by
        rw [le_abs]; left; linarith
      linarith
  · intro he
    by_contra hlt
    push_neg at hlt
    have : (n : ℚ) + 1 ≤ k := by exact_mod_cast hlt
    have : 1 / 20 < |(k : ℚ) / 10 - a| := by
      rw [lt_abs]; left; linarith
    linarith


theorem toFixed1_fin (f : ℚ → String) (x : ℚ) (hx : abs x < 10 ^ 21) :
    toFixed1 f (.fin x) = (if x < 0 then "-" else "") ++ fixedDigits (nearestTenth (abs x)) := by
  have habs : (if x < 0 then -x else x) = |x| := by
    split_ifs with h
    · exact (abs_of_neg h).symm
    · exact (abs_of_nonneg (not_lt.mp h)).symm
  simp only [toFixed1, habs, ge_iff_le, not_le.mpr hx, if_false]

/-- C7: the verdict text shows `safe_probability * 100` through `toFixed(1)` when the
prediction is safe and `contaminant_probability * 100` through `toFixed(1)` otherwise,
without clamping; and for a finite value below `10^21` in magnitude `toFixed(1)` prints
the sign and the tenth nearest to the magnitude, the larger one on a tie. -/
theorem renderVerdict_percentage (f : ℚ → String) (data : PredictionResponse) :
    (renderVerdict f data).probabilityText =
      (if data.prediction = .num (.fin 0) then
        toFixed1 f (data.safe_probability.mul (lit 100)) ++ "% safe"
       else toFixed1 f (data.contaminant_probability.mul (lit 100)) ++ "% contaminated") ∧
    ∀ x : ℚ, abs x < 10 ^ 21 →
      toFixed1 f (.fin x) =
        (if x < 0 then "-" else "") ++ fixedDigits (nearestTenth (abs x)) ∧
      abs ((nearestTenth (abs x) : ℚ) / 10 - abs x) ≤ 1 / 20 ∧
      ∀ k : ℤ, abs ((nearestTenth (abs x) : ℚ) / 10 - abs x) ≤ abs ((k : ℚ) / 10 - abs x) ∧
        (abs ((k : ℚ) / 10 - abs x) = abs ((nearestTenth (abs x) : ℚ) / 10 - abs x) →
          k ≤ (nearestTenth (abs x) : ℤ)) := by
  refine ⟨?_, fun x hx => ⟨toFixed1_fin f x hx, (nearestTenth_nearest _ (abs_nonneg x) 0).1,
    fun k => (nearestTenth_nearest _ (abs_nonneg x) k).2⟩⟩
  simp only [renderVerdict, strictEqNum_zero, decide_eq_true_eq]

/-- Witness of C7: (safe, 0.83, 0.17) shows 83.0, (contaminated, 0.1, 0.9) shows 90.0, a
safe probability of 1.5 shows 150.0, and the value 83 is printed as 83.0. -/
theorem renderVerdict_percentage_witness :
    (renderVerdict (fun _ => "")
      { prediction := .num (lit 0), safe_probability := lit (83/100),
        contaminant_probability := lit (17/100) }).probabilityText = "83.0% safe" ∧
    (renderVerdict (fun _ => "")
      { prediction := .num (lit 1), safe_probability := lit (1/10),
        contaminant_probability := lit (9/10) }).probabilityText = "90.0% contaminated" ∧
    (renderVerdict (fun _ => "")
      { prediction := .num (lit 0), safe_probability := lit (3/2),
        contaminant_probability := lit (-1/2) }).probabilityText = "150.0% safe" ∧
    toFixed1 (fun _ => "") (.fin 83) = "83.0" :=
  ⟨(renderVerdict_percentage _ _).1.trans (by decide!),
   (renderVerdict_percentage _ _).1.trans (by decide!),
   (renderVerdict_percentage _ _).1.trans (by decide!),
   ((renderVerdict_percentage (fun _ => "")
      { prediction := .num (lit 0), safe_probability := lit (83/100),
        contaminant_probability := lit (17/100) }).2 83 (by norm_num)).1.trans (by decide!)⟩

/-- C10: the markup of the probability bar has `safe_probability * 100` through
`toFixed(1)` as its width whatever the prediction, and the colour of the prediction; for a
contaminated verdict the bar has the danger colour and the safe percentage as width, while
the text shows the contaminant percentage. -/
theorem renderVerdict_bar (f : ℚ → String) (data : PredictionResponse) :
    (renderVerdict f data).probabilityBar =
      "<div style=\"width: " ++ toFixed1 f (data.safe_probability.mul (lit 100)) ++
        "%; background-color: " ++
        (if data.prediction = .num (.fin 0) then "#2ecc71" else "#e74c3c") ++
        "\"></div>" ∧
    (data.prediction ≠ .num (.fin 0) →
      (renderVerdict f data).probabilityBar =
        "<div style=\"width: " ++ toFixed1 f (data.safe_probability.mul (lit 100)) ++
          "%; background-color: #e74c3c\"></div>" ∧
      (renderVerdict f data).probabilityText =
        toFixed1 f (data.contaminant_probability.mul (lit 100)) ++ "% contaminated") ∧
    (∀ x : ℚ, data.safe_probability.mul (lit 100) = .fin x → abs x < 10 ^ 21 →
      (renderVerdict f data).probabilityBar =
        "<div style=\"width: " ++
          ((if x < 0 then "-" else "") ++ fixedDigits (nearestTenth (abs x))) ++
          "%; background-color: " ++
          (if data.prediction = .num (.fin 0) then "#2ecc71" else "#e74c3c") ++
          "\"></div>" ∧
      abs ((nearestTenth (abs x) : ℚ) / 10 - abs x) ≤ 1 / 20) := by
  have h0 : (renderVerdict f data).probabilityBar =
      "<div style=\"width: " ++ toFixed1 f (data.safe_probability.mul (lit 100)) ++
        "%; background-color: " ++
        (if data.prediction = .num (.fin 0) then "#2ecc71" else "#e74c3c") ++
        "\"></div>" := by
    simp only [renderVerdict, barMarkup, strictEqNum_zero, decide_eq_true_eq]
  refine ⟨h0, fun h => ⟨?_, ?_⟩, fun x hx hlt => ?_⟩
  · rw [h0, if_neg h]
    simp only [String.append_assoc]
    rfl
  · simp only [renderVerdict, strictEqNum_zero, decide_eq_true_eq, h, if_false]
  · rw [h0, hx, toFixed1_fin f x hlt]
    exact ⟨rfl, (nearestTenth_nearest _ (abs_nonneg x) 0).1⟩

/-- Witness of C10: for (contaminated, 0.1, 0.9) the bar is 10.0 wide in the danger
colour while the text shows 90.0; for (safe, 0.83, 0.17) the bar is 83.0 wide in the safe
colour. -/
theorem renderVerdict_bar_witness :
    (renderVerdict (fun _ => "")
      { prediction := .num (lit 1), safe_probability := lit (1/10),
        contaminant_probability := lit (9/10) }).probabilityBar
      = "<div style=\"width: 10.0%; background-color: #e74c3c\"></div>" ∧
    (renderVerdict (fun _ => "")
      { prediction := .num (lit 1), safe_probability := lit (1/10),
        contaminant_probability := lit (9/10) }).probabilityText = "90.0% contaminated" ∧
    (renderVerdict (fun _ => "")
      { prediction := .num (lit 0), safe_probability := lit (83/100),
        contaminant_probability := lit (17/100) }).probabilityBar
      = "<div style=\"width: 83.0%; background-color: #2ecc71\"></div>" ∧
    (renderVerdict (fun _ => "")
      { prediction := .str "0", safe_probability := lit (3/2),
        contaminant_probability := lit (-1/2) }).probabilityBar
      = "<div style=\"width: 150.0%; background-color: #e74c3c\"></div>" :=
  ⟨(((renderVerdict_bar (fun _ => "")
      { prediction := .num (lit 1), safe_probability := lit (1/10),
        contaminant_probability := lit (9/10) }).2.1 (by decide!)).1).trans (by decide!),
   (((renderVerdict_bar (fun _ => "")
      { prediction := .num (lit 1), safe_probability := lit (1/10),
        contaminant_probability := lit (9/10) }).2.1 (by decide!)).2).trans (by decide!),
   (renderVerdict_bar (fun _ => "")
      { prediction := .num (lit 0), safe_probability := lit (83/100),
        contaminant_probability := lit (17/100) }).1.trans (by decide!),
   (renderVerdict_bar (fun _ => "")
      { prediction := .str "0", safe_probability := lit (3/2),
        contaminant_probability := lit (-1/2) }).1.trans (by decide!)⟩

/-! ## The claims on `loadAlerts` -/

theorem forEachAlert_rendered (cardBody : Json → String) (items : List Json)
    (container : List Node) (h : ∀ a ∈ items, renderThrows a = false) :
    forEachAlert cardBody items container =
      (container ++ items.map (alertElement cardBody), false) := by
  induction items generalizing container with
  | nil => simp [forEachAlert]
  | cons a rest ih =>
    have ha : renderThrows a = false := h a (List.mem_cons_self a rest)
    have hrest : ∀ b ∈ rest, renderThrows b = false :=
      fun b hb => h b (List.mem_cons_of_mem a hb)
    simp [forEachAlert, ha, ih _ hrest]

theorem forEachAlert_throw (cardBody : Json → String) (rendered : List Json) (bad : Json)
    (rest : List Json) (container : List Node)
    (h : ∀ a ∈ rendered, renderThrows a = false) (hbad : renderThrows bad = true) :
    forEachAlert cardBody (rendered ++ bad :: rest) container =
      (container ++ rendered.map (alertElement cardBody), true) := by
  induction rendered generalizing container with
  | nil => simp [forEachAlert, hbad]
  | cons a more ih =>
    have ha : renderThrows a = false := h a (List.mem_cons_self a more)
    have hmore : ∀ b ∈ more, renderThrows b = false :=
      fun b hb => h b (List.mem_cons_of_mem a hb)
    simp [forEachAlert, ha, ih _ hmore]

theorem forEachAlert_threw (cardBody : Json → String) (items : List Json)
    (container : List Node) :
    (forEachAlert cardBody items container).2 = items.any renderThrows := by
  induction items generalizing container with
  | nil => simp [forEachAlert]
  | cons a rest ih =>
    by_cases ha : renderThrows a = true
    · simp [forEachAlert, ha]
    · simp [forEachAlert, ha, ih]

theorem alertsChain_failed (cardBody : Json → String) (outcome : FetchOutcome)
    (container : List Node) :
    (alertsChain cardBody outcome container).2 = outcome.fails := by
  cases outcome with
  | rejected => rfl
  | bodyNotJson => rfl
  | parsed alerts =>
    cases alerts with
    | arr items => simp [alertsChain, FetchOutcome.fails, forEachAlert_threw]
    | _ => rfl

/-- C8: whenever loading the feed fails (the fetch rejects, the body does not parse or is
not an array, or rendering a record throws), `loadAlerts` leaves the container with exactly
the fallback message and no alert card, whatever it held before; this includes a record
that throws after any number of cards had been appended. -/
theorem loadAlerts_failure (cardBody : Json → String) (outcome : FetchOutcome)
    (container : List Node) :
    (outcome.fails = true →
      loadAlerts cardBody outcome container =
        [.paragraph "Unable to load alerts. Please try again later."]) ∧
    (∀ (rendered : List Json) (bad : Json) (rest : List Json),
      (∀ a ∈ rendered, renderThrows a = false) → renderThrows bad = true →
      alertsChain cardBody (.parsed (.arr (rendered ++ bad :: rest))) container =
        (rendered.map (alertElement cardBody), true) ∧
      loadAlerts cardBody (.parsed (.arr (rendered ++ bad :: rest))) container =
        [.paragraph "Unable to load alerts. Please try again later."]) := by
  have key : ∀ o : FetchOutcome, o.fails = true →
      loadAlerts cardBody o container =
        [.paragraph "Unable to load alerts. Please try again later."] := by
    intro o h
    have h2 := alertsChain_failed cardBody o container
    rw [h] at h2
    simp only [loadAlerts, h2, if_true, fallbackMessage]
  refine ⟨key outcome, fun rendered bad rest h hbad => ⟨?_, key _ ?_⟩⟩
  · simp [alertsChain, forEachAlert_throw cardBody rendered bad rest [] h hbad]
  · simp [FetchOutcome.fails, hbad]

/-- Witness of C8: a rejected fetch, an unparsable body, a body that is not an array, a
`null` record after two rendered cards, and a record whose `location` has a `toString`
member all leave only the fallback message. -/
theorem loadAlerts_failure_witness :
    loadAlerts (fun _ => "") .rejected [.other "Loading"] =
      [.paragraph "Unable to load alerts. Please try again later."] ∧
    loadAlerts (fun _ => "") .bodyNotJson [] =
      [.paragraph "Unable to load alerts. Please try again later."] ∧
    loadAlerts (fun _ => "") (.parsed (.obj [("error", .str "down")]))
        [.alertCard "alert info" ""] =
      [.paragraph "Unable to load alerts. Please try again later."] ∧
    loadAlerts (fun _ => "")
      (.parsed (.arr
        [.obj [("location", .str "A"), ("severity", .str "high")],
         .obj [("location", .str "B"), ("severity", .str "low")],
         .null])) [.other "old"] =
      [.paragraph "Unable to load alerts. Please try again later."] ∧
    loadAlerts (fun _ => "")
      (.parsed (.arr
        [.obj [("location", .obj [("toString", .num (.fin 0))]),
               ("severity", .str "high")]])) [] =
      [.paragraph "Unable to load alerts. Please try again later."] ∧
    alertsChain (fun _ => "")
      (.parsed (.arr
        ([.obj [("location", .str "A"), ("severity", .str "high")],
          .obj [("location", .str "B"), ("severity", .str "low")]] ++
          .null :: []))) [.other "old"] =
      ([.alertCard "alert " "", .alertCard "alert info" ""], true) :=
  ⟨(loadAlerts_failure _ _ _).1 (by decide),
   (loadAlerts_failure _ _ _).1 (by decide),
   (loadAlerts_failure _ _ _).1 (by decide),
   (loadAlerts_failure _ _ _).1 (by decide),
   (loadAlerts_failure _ _ _).1 (by decide),
   (((loadAlerts_failure (fun _ => "") .rejected [.other "old"]).2
      [.obj [("location", .str "A"), ("severity", .str "high")],
       .obj [("location", .str "B"), ("severity", .str "low")]] .null []
      (by decide) (by decide)).1).trans (by decide)⟩

/-- C9: a rendered card has class `alert ` (empty suffix) for severity 'high',
`alert warning` for 'medium' and `alert info` for 'low', three distinct classes; and a
feed of records on which the callback does not throw is rendered as one such card per
record, in order. -/
theorem loadAlerts_severity_class (cardBody : Json → String) (alert : Json)
    (items : List Json) (container : List Node) :
    (alert.get "severity" = some (.str "high") →
      alertElement cardBody alert = .alertCard "alert " (cardBody alert)) ∧
    (alert.get "severity" = some (.str "medium") →
      alertElement cardBody alert = .alertCard "alert warning" (cardBody alert)) ∧
    (alert.get "severity" = some (.str "low") →
      alertElement cardBody alert = .alertCard "alert info" (cardBody alert)) ∧
    severitySuffix (some (.str "high")) = "" ∧
    severitySuffix (some (.str "medium")) = "warning" ∧
    severitySuffix (some (.str "low")) = "info" ∧
    severitySuffix (some (.str "high")) ≠ severitySuffix (some (.str "medium")) ∧
    severitySuffix (some (.str "high")) ≠ severitySuffix (some (.str "low")) ∧
    severitySuffix (some (.str "medium")) ≠ severitySuffix (some (.str "low")) ∧
    ((∀ a ∈ items, renderThrows a = false) →
      loadAlerts cardBody (.parsed (.arr items)) container =
        items.map (alertElement cardBody)) := by
  refine ⟨fun h => ?_, fun h => ?_, fun h => ?_, by decide, by decide, by decide, by decide,
    by decide, by decide, fun h => ?_⟩
  · simp [alertElement, severitySuffix, Json.strictEqStr, h]
  · simp [alertElement, severitySuffix, Json.strictEqStr, h]
  · simp [alertElement, severitySuffix, Json.strictEqStr, h]
  · simp [loadAlerts, alertsChain, forEachAlert_rendered cardBody items [] h]

/-- Witness of C9: a feed with one record of each severity. -/
theorem loadAlerts_severity_class_witness :
    loadAlerts (fun _ => "")
      (.parsed (.arr
        [.obj [("location", .str "A"), ("severity", .str "high")],
         .obj [("location", .str "B"), ("severity", .str "medium")],
         .obj [("location", .str "C"), ("severity", .str "low")]]))
      [.other "old"] =
      [.alertCard "alert " "", .alertCard "alert warning" "", .alertCard "alert info" ""] ∧
    alertElement (fun _ => "") (.obj [("location", .str "A"), ("severity", .str "high")]) =
      .alertCard "alert " "" :=
  ⟨((loadAlerts_severity_class (fun _ => "") .null
      [.obj [("location", .str "A"), ("severity", .str "high")],
       .obj [("location", .str "B"), ("severity", .str "medium")],
       .obj [("location", .str "C"), ("severity", .str "low")]]
      [.other "old"]).2.2.2.2.2.2.2.2.2 (by decide)).trans (by decide),
   (loadAlerts_severity_class (fun _ => "")
      (.obj [("location", .str "A"), ("severity", .str "high")]) [] []).1 (by rfl)⟩

end WaterQuality
